import Mathlib

/-!
Shallow embedding of the ARP template Run Gateway
(`arp_template_run_gateway`): the data model, the downstream-coordinator
adapter's error mapping (`RunCoordinatorGatewayClient._call`), the
gateway's health aggregation, the local-mode run registry operations
(`start_run`, `get_run`, `cancel_run`), and the local-mode
`stream_run_events` single-line JSON payload together with a parser used
to state the serialize-then-parse round trip.

Timestamps (`utils.now()`) are opaque to all of the gateway's decision
logic, so they are modelled as naturals supplied by the caller; the
nondeterministic fresh identifiers (`uuid.uuid4().hex`) are likewise
modelled as caller-supplied strings.
-/

namespace ArpGateway

/-- Health status enum (`arp_standard_model.Status`). -/
inductive Status where
  | ok
  | degraded
  | down
deriving DecidableEq

/-- Run lifecycle state enum (`arp_standard_model.RunState`). -/
inductive RunState where
  | running
  | succeeded
  | failed
  | canceled
deriving DecidableEq

/-- Timestamps: values produced by `utils.now()`, never inspected by the
gateway logic. -/
abbrev Time := Nat

/-- Caller-supplied structured data passed through unmodified
(`run_context`, `extensions`). -/
abbrev Payload := List (String × String)

/-- Value stored in a check's or error's `details` mapping: the code only
ever stores strings and `Status` values there. -/
inductive DetailVal where
  | str (s : String)
  | stat (st : Status)
deriving DecidableEq

/-- Structured `details` mapping attached to checks and errors. -/
abbrev Details := List (String × DetailVal)

/-- Health sub-check (`arp_standard_model.Check`). -/
structure Check where
  name : String
  status : Status
  message : Option String := none
  details : Option Details := none
deriving DecidableEq

/-- Health report (`arp_standard_model.Health`). The `checks` field is
optional in the pydantic model with `None` and `[]` treated identically by
every consumer in this repository (`if downstream_health.checks:`), so it
is modelled as a plain list defaulting to empty. -/
structure Health where
  status : Status
  time : Time
  checks : List Check := []
deriving DecidableEq

/-- Run record (`arp_standard_model.Run`) as constructed and stored by the
gateway. -/
structure Run where
  run_id : String
  state : RunState
  root_node_run_id : String
  run_context : Option Payload := none
  started_at : Option Time := none
  ended_at : Option Time := none
  extensions : Option Payload := none
deriving DecidableEq

/-- Gateway standard error (`arp_standard_server.ArpServerError`). -/
structure ArpServerError where
  code : String
  message : String
  status_code : Nat
  details : Option Details := none
deriving DecidableEq

deriving instance DecidableEq for Except

/-- Downstream faults observed by `RunCoordinatorGatewayClient._call`:
either a recognized API-level error (`ArpApiError`, carrying a code, a
message, an optional status code and optional details) or any other fault,
abstracted by its Python string representation. -/
inductive DownstreamFault where
  | apiError (code : String) (message : String) (status_code : Option Nat) (details : Option Details)
  | other (stringified : String)
deriving DecidableEq

/-- Python truthiness of `x or d` for an optional integer field: `None`
and `0` are both falsy and fall back to `d`. -/
def pyOrNat (x : Option Nat) (d : Nat) : Nat :=
  match x with
  | none => d
  | some n => if n = 0 then d else n

/-- Error mapping of `RunCoordinatorGatewayClient._call`
(run_coordinator_client.py lines 79-98), applied uniformly to the outcome
of each of the five downstream calls (health, start, get, cancel, stream).
`base_url` is the client's `self.base_url`. -/
def callMap {α : Type} (base_url : String) : Except DownstreamFault α → Except ArpServerError α
  | .ok v => .ok v
  | .error (.apiError c m sc d) =>
      .error { code := c, message := m, status_code := pyOrNat sc 502, details := d }
  | .error (.other s) =>
      .error { code := "run_coordinator_unavailable",
               message := "Run Coordinator request failed",
               status_code := 502,
               details := some [("run_coordinator_url", DetailVal.str base_url),
                                ("error", DetailVal.str s)] }

/-- Local run registry: `RunGateway._runs`, a mapping from run id to run
record. -/
def Registry := String → Option Run

/-- Empty registry (a fresh gateway's `self._runs = {}`). -/
def Registry.empty : Registry := fun _ => none

/-- Dictionary assignment `self._runs[k] = v`. -/
def Registry.insert (m : Registry) (k : String) (v : Run) : Registry :=
  fun k1 => if k1 = k then some v else m k1

/-- Gateway state: the optional coordinator (represented by its base url)
fixed at construction time, plus the in-memory registry. -/
structure Gateway where
  run_coordinator : Option String := none
  runs : Registry := Registry.empty

/-- RunGateway.health (gateway.py lines 79-117). `t` is the value of
`now()`; `downstream` is the outcome of `self._run_coordinator.health()`,
with a fault abstracted by its string representation `str(exc)`. -/
def health (g : Gateway) (t : Time) (downstream : Except String Health) : Health :=
  match g.run_coordinator with
  | none => { status := Status.ok, time := t }
  | some url =>
    match downstream with
    | .error exc =>
        { status := Status.degraded, time := t,
          checks := [{ name := "run_coordinator", status := Status.down,
                       message := some exc,
                       details := some [("url", DetailVal.str url)] }] }
    | .ok dh =>
        let check : Check :=
          { name := "run_coordinator", status := dh.status, message := none,
            details := some [("url", DetailVal.str url),
                             ("status", DetailVal.stat dh.status)] }
        { status := dh.status, time := t,
          checks := [check] ++ (if dh.checks.isEmpty then [] else dh.checks) }

/-- Python truthiness of `x or d` for an optional string field: `None` and
the empty string are both falsy and fall back to `d`. -/
def pyOrStr (x : Option String) (d : String) : String :=
  match x with
  | none => d
  | some s => if s = "" then d else s

/-- Body of a start request (`RunStartRequest`) as read by the gateway in
local mode: `run_id`, `run_context` and `extensions`; the remaining fields
are forwarded to the coordinator untouched and never read locally. -/
structure StartBody where
  run_id : Option String := none
  run_context : Option Payload := none
  extensions : Option Payload := none
deriving DecidableEq

/-- Terminal-state test used by `cancel_run`:
`run.state in (RunState.succeeded, RunState.failed, RunState.canceled)`. -/
def RunState.isTerminal : RunState → Bool
  | .succeeded => true
  | .failed => true
  | .canceled => true
  | .running => false

/-- Single-quote character used by the f-string error messages. -/
def squoteStr : String := String.singleton (Char.ofNat 39)

/-- Error raised on a local lookup miss (gateway.py lines 236-240). -/
def runNotFoundError (rid : String) : ArpServerError :=
  { code := "run_not_found",
    message := "Run " ++ squoteStr ++ rid ++ squoteStr ++ " not found",
    status_code := 404 }

/-- Error raised on a duplicate identifier (gateway.py lines 152-156). -/
def runAlreadyExistsError (rid : String) : ArpServerError :=
  { code := "run_already_exists",
    message := "Run " ++ squoteStr ++ rid ++ squoteStr ++ " already exists",
    status_code := 409 }

/-- RunGateway._get_local_run (gateway.py lines 232-241): read-only lookup
(`self._runs.get(run_id)`). -/
def getLocalRun (runs : Registry) (rid : String) : Except ArpServerError Run :=
  match runs rid with
  | none => .error (runNotFoundError rid)
  | some r => .ok r

/-- Local branch of RunGateway.start_run (gateway.py lines 150-169),
returning the result together with the registry after the call.
`freshRunHex` and `freshNodeHex` are the two `uuid.uuid4().hex` draws. -/
def startRunLocal (runs : Registry) (body : StartBody)
    (freshRunHex freshNodeHex : String) (t : Time) :
    Except ArpServerError Run × Registry :=
  let run_id := pyOrStr body.run_id ("run_" ++ freshRunHex)
  if (runs run_id).isSome then
    (.error (runAlreadyExistsError run_id), runs)
  else
    let run : Run :=
      { run_id := run_id, state := RunState.running,
        root_node_run_id := "node_run_" ++ freshNodeHex,
        run_context := body.run_context, started_at := some t,
        ended_at := none, extensions := body.extensions }
    (.ok run, runs.insert run_id run)

/-- Local branch of RunGateway.cancel_run (gateway.py lines 200-205):
lookup-or-fail, no-op when terminal, otherwise `model_copy` with state
canceled and `ended_at = now()`, stored at `run.run_id`. -/
def cancelRunLocal (runs : Registry) (rid : String) (t : Time) :
    Except ArpServerError Run × Registry :=
  match runs rid with
  | none => (.error (runNotFoundError rid), runs)
  | some run =>
    if run.state.isTerminal then (.ok run, runs)
    else
      let updated : Run := { run with state := RunState.canceled, ended_at := some t }
      (.ok updated, runs.insert run.run_id updated)

/-- RunGateway.start_run (gateway.py lines 136-169): proxy mode forwards
the body to the adapter (`downstream` is that call's outcome) without any
registry check; local mode runs the registry logic. The registry after the
call is returned alongside the result. -/
def startRun (g : Gateway) (downstream : Except ArpServerError Run)
    (body : StartBody) (freshRunHex freshNodeHex : String) (t : Time) :
    Except ArpServerError Run × Registry :=
  match g.run_coordinator with
  | some _ => (downstream, g.runs)
  | none => startRunLocal g.runs body freshRunHex freshNodeHex t

/-- RunGateway.get_run (gateway.py lines 171-184): proxy mode delegates;
local mode is a read-only registry lookup. -/
def getRun (g : Gateway) (downstream : Except ArpServerError Run)
    (rid : String) : Except ArpServerError Run :=
  match g.run_coordinator with
  | some _ => downstream
  | none => getLocalRun g.runs rid

/-- RunGateway.cancel_run (gateway.py lines 186-205). -/
def cancelRun (g : Gateway) (downstream : Except ArpServerError Run)
    (rid : String) (t : Time) : Except ArpServerError Run × Registry :=
  match g.run_coordinator with
  | some _ => (downstream, g.runs)
  | none => cancelRunLocal g.runs rid t

/-- One local-mode API call with its nondeterministic inputs. `get` reads
the registry but never writes it (`_get_local_run` only calls `dict.get`). -/
inductive GOp where
  | start (body : StartBody) (freshRunHex freshNodeHex : String) (t : Time)
  | get (rid : String)
  | cancel (rid : String) (t : Time)

/-- Registry after one local-mode call (failed calls included). -/
def applyGOp (runs : Registry) : GOp → Registry
  | .start body f n t => (startRunLocal runs body f n t).2
  | .get _ => runs
  | .cancel rid t => (cancelRunLocal runs rid t).2

/-- Registry reachable from a fresh gateway by a sequence of local calls. -/
def reachRegistry (ops : List GOp) : Registry :=
  ops.foldl applyGOp Registry.empty

/-- Well-formedness maintained by the local registry: every stored record
is keyed by its own `run_id`, and no key is the empty string (an empty
caller-supplied id is falsy, so `request.body.run_id or fresh` replaces
it with a fresh `run_<hex>` identifier). -/
def RegistryWF (runs : Registry) : Prop :=
  ∀ rid r, runs rid = some r → r.run_id = rid ∧ rid ≠ ""

theorem append_run_ne_empty (p f : String) (hp : p.length ≠ 0) : p ++ f ≠ "" := by
  intro h
  have hl : (p ++ f).length = 0 := by rw [h]; rfl
  rw [String.length_append] at hl
  omega

theorem startKey_ne_empty (x : Option String) (f : String) :
    pyOrStr x ("run_" ++ f) ≠ "" := by
  have hrun : ("run_" ++ f : String) ≠ "" := by
    apply append_run_ne_empty
    decide
  unfold pyOrStr
  cases x with
  | none => exact hrun
  | some s =>
    by_cases hs : s = ""
    · simp [hs]
      exact hrun
    · simp [hs]

theorem wf_insert (runs : Registry) (k : String) (v : Run) (hw : RegistryWF runs)
    (hk : v.run_id = k) (hne : k ≠ "") : RegistryWF (runs.insert k v) := by
  intro rid r h
  unfold Registry.insert at h
  by_cases he : rid = k
  · subst he
    simp at h
    subst h
    exact ⟨hk, hne⟩
  · simp [he] at h
    exact hw rid r h

theorem wf_applyGOp (runs : Registry) (op : GOp) (hw : RegistryWF runs) :
    RegistryWF (applyGOp runs op) := by
  cases op with
  | get rid => exact hw
  | start body f n t =>
    unfold applyGOp startRunLocal
    by_cases hex : (runs (pyOrStr body.run_id ("run_" ++ f))).isSome
    · simp only [hex, if_true]
      exact hw
    · simp only [hex, if_false, Bool.false_eq_true]
      exact wf_insert _ _ _ hw rfl (startKey_ne_empty _ _)
  | cancel rid t =>
    simp only [applyGOp, cancelRunLocal]
    cases hl : runs rid with
    | none =>
      simp only [hl]
      exact hw
    | some run =>
      simp only [hl]
      by_cases ht : run.state.isTerminal
      · simp only [ht, if_true]
        exact hw
      · simp only [ht, Bool.false_eq_true, if_false]
        have hwr := hw rid run hl
        exact wf_insert _ _ _ hw rfl (by rw [hwr.1]; exact hwr.2)

theorem wf_foldl (ops : List GOp) (runs : Registry) (hw : RegistryWF runs) :
    RegistryWF (ops.foldl applyGOp runs) := by
  induction ops generalizing runs with
  | nil => exact hw
  | cons op rest ih => exact ih _ (wf_applyGOp _ _ hw)

theorem reach_wf (ops : List GOp) : RegistryWF (reachRegistry ops) := by
  apply wf_foldl
  intro rid r h
  simp [Registry.empty] at h

/-- C1 (amended): the adapter maps a recognized API-level downstream error
to the gateway's standard error with the same code, message and details,
and with the downstream's status code when that code is present and
non-zero, defaulting to 502 when the downstream supplied none or a zero
(falsy) status code; any other fault maps to code
`run_coordinator_unavailable`, status 502, with details holding the
coordinator's base url and the stringified fault; successes pass through. -/
theorem claim_c1_amended (α : Type) (url : String) (v : α) (c m : String)
    (k : Nat) (hk : k ≠ 0) (d : Option Details) (s : String) :
    callMap url (Except.ok v) = Except.ok v
    ∧ callMap url (Except.error (DownstreamFault.apiError c m none d) : Except DownstreamFault α)
        = Except.error { code := c, message := m, status_code := 502, details := d }
    ∧ callMap url (Except.error (DownstreamFault.apiError c m (some 0) d) : Except DownstreamFault α)
        = Except.error { code := c, message := m, status_code := 502, details := d }
    ∧ callMap url (Except.error (DownstreamFault.apiError c m (some k) d) : Except DownstreamFault α)
        = Except.error { code := c, message := m, status_code := k, details := d }
    ∧ callMap url (Except.error (DownstreamFault.other s) : Except DownstreamFault α)
        = Except.error { code := "run_coordinator_unavailable",
                         message := "Run Coordinator request failed", status_code := 502,
                         details := some [("run_coordinator_url", DetailVal.str url),
                                          ("error", DetailVal.str s)] } := by
  refine ⟨rfl, rfl, rfl, ?_, rfl⟩
  simp [callMap, pyOrNat, hk]

/-- Witness for C1 at concrete inputs. -/
theorem claim_c1_amended_witness :
    callMap "http://coordinator.test" (Except.ok (3 : Nat)) = Except.ok 3
    ∧ callMap "http://coordinator.test"
        (Except.error (DownstreamFault.apiError "bad_request" "boom" none none) : Except DownstreamFault Nat)
        = Except.error { code := "bad_request", message := "boom", status_code := 502, details := none }
    ∧ callMap "http://coordinator.test"
        (Except.error (DownstreamFault.apiError "bad_request" "boom" (some 0) none) : Except DownstreamFault Nat)
        = Except.error { code := "bad_request", message := "boom", status_code := 502, details := none }
    ∧ callMap "http://coordinator.test"
        (Except.error (DownstreamFault.apiError "bad_request" "boom" (some 404) none) : Except DownstreamFault Nat)
        = Except.error { code := "bad_request", message := "boom", status_code := 404, details := none }
    ∧ callMap "http://coordinator.test"
        (Except.error (DownstreamFault.other "timeout") : Except DownstreamFault Nat)
        = Except.error { code := "run_coordinator_unavailable",
                         message := "Run Coordinator request failed", status_code := 502,
                         details := some [("run_coordinator_url", DetailVal.str "http://coordinator.test"),
                                          ("error", DetailVal.str "timeout")] } :=
  claim_c1_amended Nat "http://coordinator.test" 3 "bad_request" "boom" 404 (by decide) none "timeout"

/-- C1 counterexample: the claim as stated requires the mapped error to
carry the downstream's status code whenever the downstream supplied one;
for a supplied status code of 0 the code maps it to 502 instead
(`exc.status_code or 502` treats 0 as falsy). -/
theorem claim_c1_counterexample :
    callMap "http://coordinator.test"
        (Except.error (DownstreamFault.apiError "bad_request" "boom" (some 0) none) : Except DownstreamFault Nat)
      = Except.error { code := "bad_request", message := "boom", status_code := 502, details := none }
    ∧ some (0 : Nat) ≠ none ∧ (502 : Nat) ≠ 0 := by
  refine ⟨rfl, by decide, by decide⟩

/-- C3: when a coordinator is configured and its health call raises any
fault, `health` returns (does not raise) a report with top-level status
degraded, containing exactly one check named `run_coordinator` with status
down, message equal to the fault's string representation, and details
holding the coordinator's url. -/
theorem claim_c3 (g : Gateway) (url : String) (t : Time) (exc : String)
    (h : g.run_coordinator = some url) :
    health g t (Except.error exc)
      = { status := Status.degraded, time := t,
          checks := [{ name := "run_coordinator", status := Status.down,
                       message := some exc,
                       details := some [("url", DetailVal.str url)] }] } := by
  simp [health, h]

/-- Witness for C3 at a concrete gateway and fault. -/
theorem claim_c3_witness :
    health ({ run_coordinator := some "http://coordinator.test" } : Gateway) 7 (Except.error "boom")
      = { status := Status.degraded, time := 7,
          checks := [{ name := "run_coordinator", status := Status.down,
                       message := some "boom",
                       details := some [("url", DetailVal.str "http://coordinator.test")] }] } :=
  claim_c3 ({ run_coordinator := some "http://coordinator.test" } : Gateway) "http://coordinator.test" 7 "boom" rfl

/-- C4: when a coordinator is configured and its health call succeeds,
`health` mirrors the downstream status at top level and the check list is
exactly a synthesized `run_coordinator` check (downstream status, details
url and status) followed by the downstream report's own checks in their
original order. -/
theorem claim_c4 (g : Gateway) (url : String) (t : Time) (dh : Health)
    (h : g.run_coordinator = some url) :
    health g t (Except.ok dh)
      = { status := dh.status, time := t,
          checks := { name := "run_coordinator", status := dh.status, message := none,
                      details := some [("url", DetailVal.str url),
                                       ("status", DetailVal.stat dh.status)] } :: dh.checks } := by
  simp only [health, h]
  cases hc : dh.checks with
  | nil => simp [hc]
  | cons a l => simp [hc]

/-- Witness for C4: a coordinator reporting degraded with one sub-check. -/
theorem claim_c4_witness :
    health ({ run_coordinator := some "http://coordinator.test" } : Gateway) 7
        (Except.ok { status := Status.degraded, time := 3,
                     checks := [{ name := "db", status := Status.down }] })
      = { status := Status.degraded, time := 7,
          checks := [{ name := "run_coordinator", status := Status.degraded, message := none,
                       details := some [("url", DetailVal.str "http://coordinator.test"),
                                        ("status", DetailVal.stat Status.degraded)] },
                     { name := "db", status := Status.down }] } :=
  claim_c4 ({ run_coordinator := some "http://coordinator.test" } : Gateway) "http://coordinator.test" 7
    { status := Status.degraded, time := 3, checks := [{ name := "db", status := Status.down }] } rfl

/-- C8: with no coordinator configured, `health` returns status ok, the
current timestamp, and an empty check list, whatever the (never consulted)
downstream outcome would have been. -/
theorem claim_c8 (g : Gateway) (t : Time) (downstream : Except String Health)
    (h : g.run_coordinator = none) :
    health g t downstream = { status := Status.ok, time := t, checks := [] } := by
  simp [health, h]

/-- Witness for C8 on a fresh default gateway. -/
theorem claim_c8_witness :
    health ({ } : Gateway) 7 (Except.error "unused")
      = { status := Status.ok, time := 7, checks := [] } :=
  claim_c8 ({ } : Gateway) 7 (Except.error "unused") rfl

/-- C5: in local mode, when the chosen identifier (the caller-supplied id,
or the synthesized `run_<hex>` when the request supplied none or an empty
one) is absent from the registry, `start_run` returns a running run with
that id, a non-null `started_at`, null `ended_at`, and `run_context` and
`extensions` copied verbatim from the request; it stores exactly that
record, and a subsequent local get on the same identifier returns the
identical record. -/
theorem claim_c5 (g : Gateway) (downstream : Except ArpServerError Run)
    (body : StartBody) (f n : String) (t : Time)
    (hmode : g.run_coordinator = none)
    (habs : g.runs (pyOrStr body.run_id ("run_" ++ f)) = none) :
    ∃ run : Run,
      startRun g downstream body f n t = (Except.ok run, g.runs.insert run.run_id run)
      ∧ run.run_id = pyOrStr body.run_id ("run_" ++ f)
      ∧ run.state = RunState.running
      ∧ run.started_at = some t
      ∧ run.started_at ≠ none
      ∧ run.ended_at = none
      ∧ run.run_context = body.run_context
      ∧ run.extensions = body.extensions
      ∧ getLocalRun (startRun g downstream body f n t).2 run.run_id = Except.ok run := by
  refine ⟨{ run_id := pyOrStr body.run_id ("run_" ++ f), state := RunState.running,
            root_node_run_id := "node_run_" ++ n, run_context := body.run_context,
            started_at := some t, ended_at := none, extensions := body.extensions },
          ?_, rfl, rfl, rfl, by simp, rfl, rfl, rfl, ?_⟩
  · simp [startRun, hmode, startRunLocal, habs]
  · simp [startRun, hmode, startRunLocal, habs, getLocalRun, Registry.insert]

/-- Witness for C5 on a fresh gateway and an explicit identifier. -/
theorem claim_c5_witness :
    ∃ run : Run,
      startRun ({ } : Gateway) (Except.error (runNotFoundError "unused"))
          ({ run_id := some "run_1" } : StartBody) "f" "n" 5
        = (Except.ok run, ({ } : Gateway).runs.insert run.run_id run)
      ∧ run.run_id = pyOrStr (some "run_1") ("run_" ++ "f")
      ∧ run.state = RunState.running
      ∧ run.started_at = some 5
      ∧ run.started_at ≠ none
      ∧ run.ended_at = none
      ∧ run.run_context = none
      ∧ run.extensions = none
      ∧ getLocalRun (startRun ({ } : Gateway) (Except.error (runNotFoundError "unused"))
            ({ run_id := some "run_1" } : StartBody) "f" "n" 5).2 run.run_id = Except.ok run :=
  claim_c5 ({ } : Gateway) (Except.error (runNotFoundError "unused"))
    ({ run_id := some "run_1" } : StartBody) "f" "n" 5 rfl (by decide)

/-- C6: a caller-supplied identifier already present in a reachable local
registry makes local-mode `start_run` fail with code `run_already_exists`
and status 409, the registry left unchanged; in proxy mode the request is
forwarded to the adapter with no registry check at all. -/
theorem claim_c6 (ops : List GOp) (body : StartBody) (rid : String) (r : Run)
    (f n : String) (t : Time) (g : Gateway) (downstream : Except ArpServerError Run)
    (hsup : body.run_id = some rid) (hmem : reachRegistry ops rid = some r) :
    startRun ({ run_coordinator := none, runs := reachRegistry ops } : Gateway)
        downstream body f n t
      = (Except.error (runAlreadyExistsError rid), reachRegistry ops)
    ∧ (runAlreadyExistsError rid).code = "run_already_exists"
    ∧ (runAlreadyExistsError rid).status_code = 409
    ∧ (∀ url, g.run_coordinator = some url →
        startRun g downstream body f n t = (downstream, g.runs)) := by
  have hne : rid ≠ "" := ((reach_wf ops) rid r hmem).2
  have hkey : pyOrStr body.run_id ("run_" ++ f) = rid := by
    rw [hsup]
    simp [pyOrStr, hne]
  refine ⟨?_, rfl, rfl, ?_⟩
  · simp only [startRun, startRunLocal, hkey, hmem, Option.isSome_some, if_true]
  · intro url hurl
    simp only [startRun, hurl]

/-- Witness for C6: starting `run_1` twice from a fresh gateway, plus the
proxy-mode passthrough on a coordinator-backed gateway. -/
theorem claim_c6_witness :
    startRun ({ run_coordinator := none,
                runs := reachRegistry [GOp.start ({ run_id := some "run_1" } : StartBody) "f" "n" 0] } : Gateway)
        (Except.error (runNotFoundError "unused")) ({ run_id := some "run_1" } : StartBody) "f2" "n2" 5
      = (Except.error (runAlreadyExistsError "run_1"),
         reachRegistry [GOp.start ({ run_id := some "run_1" } : StartBody) "f" "n" 0])
    ∧ (runAlreadyExistsError "run_1").code = "run_already_exists"
    ∧ (runAlreadyExistsError "run_1").status_code = 409
    ∧ (∀ url, ({ run_coordinator := some "http://coordinator.test" } : Gateway).run_coordinator = some url →
        startRun ({ run_coordinator := some "http://coordinator.test" } : Gateway)
            (Except.error (runNotFoundError "unused")) ({ run_id := some "run_1" } : StartBody) "f2" "n2" 5
          = (Except.error (runNotFoundError "unused"),
             ({ run_coordinator := some "http://coordinator.test" } : Gateway).runs)) :=
  claim_c6 [GOp.start ({ run_id := some "run_1" } : StartBody) "f" "n" 0]
    ({ run_id := some "run_1" } : StartBody) "run_1"
    ({ run_id := "run_1", state := RunState.running, root_node_run_id := "node_run_n",
       run_context := none, started_at := some 0, ended_at := none, extensions := none } : Run)
    "f2" "n2" 5 ({ run_coordinator := some "http://coordinator.test" } : Gateway)
    (Except.error (runNotFoundError "unused")) rfl (by decide)

/-- C7: in local mode, `get_run` and `cancel_run` fail with code
`run_not_found` and status 404 exactly when the identifier is absent from
the registry; when the identifier is present, the lookup returns the
stored record. -/
theorem claim_c7 (g : Gateway) (downstream : Except ArpServerError Run)
    (rid : String) (t : Time) (h : g.run_coordinator = none) :
    ((∃ e, getRun g downstream rid = Except.error e
        ∧ e.code = "run_not_found" ∧ e.status_code = 404) ↔ g.runs rid = none)
    ∧ ((∃ e, (cancelRun g downstream rid t).1 = Except.error e
        ∧ e.code = "run_not_found" ∧ e.status_code = 404) ↔ g.runs rid = none)
    ∧ (∀ r, g.runs rid = some r → getRun g downstream rid = Except.ok r) := by
  simp only [getRun, cancelRun, h]
  cases hl : g.runs rid with
  | none =>
    refine ⟨?_, ?_, ?_⟩
    · constructor
      · intro _
        rfl
      · intro _
        exact ⟨runNotFoundError rid, by simp [getLocalRun, hl], rfl, rfl⟩
    · constructor
      · intro _
        rfl
      · intro _
        exact ⟨runNotFoundError rid, by simp [cancelRunLocal, hl], rfl, rfl⟩
    · intro r hr
      cases hr
  | some r0 =>
    refine ⟨?_, ?_, ?_⟩
    · constructor
      · rintro ⟨e, he, -, -⟩
        simp [getLocalRun, hl] at he
      · intro hc
        cases hc
    · constructor
      · rintro ⟨e, he, -, -⟩
        simp only [cancelRunLocal, hl] at he
        by_cases ht : r0.state.isTerminal
        · simp [ht] at he
        · simp [ht] at he
      · intro hc
        cases hc
    · intro r hr
      cases hr
      simp [getLocalRun, hl]

/-- Witness for C7: a fresh empty gateway misses `run_1`, and a gateway
holding `run_1` returns the stored record. -/
theorem claim_c7_witness :
    (((∃ e, getRun ({ } : Gateway) (Except.error (runNotFoundError "unused")) "run_1" = Except.error e
        ∧ e.code = "run_not_found" ∧ e.status_code = 404) ↔ ({ } : Gateway).runs "run_1" = none)
    ∧ ((∃ e, (cancelRun ({ } : Gateway) (Except.error (runNotFoundError "unused")) "run_1" 5).1 = Except.error e
        ∧ e.code = "run_not_found" ∧ e.status_code = 404) ↔ ({ } : Gateway).runs "run_1" = none)
    ∧ (∀ r, ({ } : Gateway).runs "run_1" = some r →
        getRun ({ } : Gateway) (Except.error (runNotFoundError "unused")) "run_1" = Except.ok r))
    ∧ (∀ r, ({ runs := Registry.insert Registry.empty "run_1"
                 ({ run_id := "run_1", state := RunState.running, root_node_run_id := "node_1" } : Run) } : Gateway).runs "run_1" = some r →
        getRun ({ runs := Registry.insert Registry.empty "run_1"
                    ({ run_id := "run_1", state := RunState.running, root_node_run_id := "node_1" } : Run) } : Gateway)
            (Except.error (runNotFoundError "unused")) "run_1" = Except.ok r) :=
  ⟨claim_c7 ({ } : Gateway) (Except.error (runNotFoundError "unused")) "run_1" 5 rfl,
   (claim_c7 ({ runs := Registry.insert Registry.empty "run_1"
                  ({ run_id := "run_1", state := RunState.running, root_node_run_id := "node_1" } : Run) } : Gateway)
      (Except.error (runNotFoundError "unused")) "run_1" 5 rfl).2.2⟩

/-- C2: local-mode cancel on a stored run: when the stored state is
terminal, the existing record is returned and the registry is untouched
(idempotent no-op, `ended_at` not set a second time); when the stored run
is running, a fresh copy with state canceled and `ended_at = now` is
returned and replaces the registry entry, and that copy is a new record
distinct from the untouched original (construct-and-replace, no in-place
mutation). -/
theorem claim_c2 (ops : List GOp) (downstream : Except ArpServerError Run)
    (rid : String) (r : Run) (t : Time)
    (hmem : reachRegistry ops rid = some r) :
    (r.state.isTerminal = true →
      cancelRun ({ run_coordinator := none, runs := reachRegistry ops } : Gateway) downstream rid t
        = (Except.ok r, reachRegistry ops))
    ∧ (r.state = RunState.running →
      cancelRun ({ run_coordinator := none, runs := reachRegistry ops } : Gateway) downstream rid t
        = (Except.ok ({ r with state := RunState.canceled, ended_at := some t } : Run),
           (reachRegistry ops).insert rid ({ r with state := RunState.canceled, ended_at := some t } : Run))
      ∧ ({ r with state := RunState.canceled, ended_at := some t } : Run) ≠ r
      ∧ ({ r with state := RunState.canceled, ended_at := some t } : Run).ended_at = some t) := by
  have hid : r.run_id = rid := ((reach_wf ops) rid r hmem).1
  constructor
  · intro ht
    simp only [cancelRun, cancelRunLocal, hmem, ht, if_true]
  · intro hrun
    have ht : r.state.isTerminal = false := by
      rw [hrun]
      rfl
    refine ⟨?_, ?_, rfl⟩
    · simp only [cancelRun, cancelRunLocal, hmem, ht, Bool.false_eq_true, if_false, hid]
    · intro hEq
      have hst := congrArg Run.state hEq
      rw [hrun] at hst
      simp at hst

/-- Witness for C2: canceling an already-canceled `run_1` is a no-op, and
canceling a running `run_2` replaces it with a canceled copy. -/
theorem claim_c2_witness :
    (cancelRun ({ run_coordinator := none,
                  runs := reachRegistry [GOp.start ({ run_id := some "run_1" } : StartBody) "f" "n" 0,
                                         GOp.cancel "run_1" 1] } : Gateway)
        (Except.error (runNotFoundError "unused")) "run_1" 5
      = (Except.ok ({ run_id := "run_1", state := RunState.canceled, root_node_run_id := "node_run_n",
                      run_context := none, started_at := some 0, ended_at := some 1,
                      extensions := none } : Run),
         reachRegistry [GOp.start ({ run_id := some "run_1" } : StartBody) "f" "n" 0,
                        GOp.cancel "run_1" 1]))
    ∧ (cancelRun ({ run_coordinator := none,
                    runs := reachRegistry [GOp.start ({ run_id := some "run_2" } : StartBody) "f" "n" 0] } : Gateway)
          (Except.error (runNotFoundError "unused")) "run_2" 5
        = (Except.ok ({ run_id := "run_2", state := RunState.canceled, root_node_run_id := "node_run_n",
                        run_context := none, started_at := some 0, ended_at := some 5,
                        extensions := none } : Run),
           (reachRegistry [GOp.start ({ run_id := some "run_2" } : StartBody) "f" "n" 0]).insert "run_2"
             ({ run_id := "run_2", state := RunState.canceled, root_node_run_id := "node_run_n",
                run_context := none, started_at := some 0, ended_at := some 5,
                extensions := none } : Run))
        ∧ ({ run_id := "run_2", state := RunState.canceled, root_node_run_id := "node_run_n",
             run_context := none, started_at := some 0, ended_at := some 5,
             extensions := none } : Run)
            ≠ ({ run_id := "run_2", state := RunState.running, root_node_run_id := "node_run_n",
                 run_context := none, started_at := some 0, ended_at := none,
                 extensions := none } : Run)
        ∧ ({ run_id := "run_2", state := RunState.canceled, root_node_run_id := "node_run_n",
             run_context := none, started_at := some 0, ended_at := some 5,
             extensions := none } : Run).ended_at = some 5) :=
  ⟨(claim_c2 [GOp.start ({ run_id := some "run_1" } : StartBody) "f" "n" 0, GOp.cancel "run_1" 1]
      (Except.error (runNotFoundError "unused")) "run_1"
      ({ run_id := "run_1", state := RunState.canceled, root_node_run_id := "node_run_n",
         run_context := none, started_at := some 0, ended_at := some 1, extensions := none } : Run)
      5 (by decide)).1 (by decide),
   (claim_c2 [GOp.start ({ run_id := some "run_2" } : StartBody) "f" "n" 0]
      (Except.error (runNotFoundError "unused")) "run_2"
      ({ run_id := "run_2", state := RunState.running, root_node_run_id := "node_run_n",
         run_context := none, started_at := some 0, ended_at := none, extensions := none } : Run)
      5 (by decide)).2 rfl⟩

/-- C10: local-mode error atomicity — a failing `start_run` or
`cancel_run` returns with the registry exactly as it was (in particular a
duplicate-identifier start leaves the stored record in place), and
`get_run` never writes the registry. -/
theorem claim_c10 (runs : Registry) (body : StartBody) (f n : String)
    (t : Time) (rid : String) :
    (∀ e, (startRunLocal runs body f n t).1 = Except.error e →
        (startRunLocal runs body f n t).2 = runs)
    ∧ (∀ e, (cancelRunLocal runs rid t).1 = Except.error e →
        (cancelRunLocal runs rid t).2 = runs)
    ∧ applyGOp runs (GOp.get rid) = runs := by
  refine ⟨?_, ?_, rfl⟩
  · intro e he
    by_cases hex : (runs (pyOrStr body.run_id ("run_" ++ f))).isSome
    · simp only [startRunLocal, hex, if_true]
    · simp only [startRunLocal, hex, Bool.false_eq_true, if_false] at he
      exact Except.noConfusion he
  · intro e he
    cases hl : runs rid with
    | none => simp only [cancelRunLocal, hl]
    | some run =>
      simp only [cancelRunLocal, hl] at he ⊢
      by_cases ht : run.state.isTerminal
      · simp only [ht, if_true]
      · simp only [ht, Bool.false_eq_true, if_false] at he
        exact Except.noConfusion he

/-- Witness for C10: a duplicate start and a missing cancel both leave a
one-entry registry untouched. -/
theorem claim_c10_witness :
    (startRunLocal (Registry.insert Registry.empty "run_1"
          ({ run_id := "run_1", state := RunState.running, root_node_run_id := "node_1" } : Run))
        ({ run_id := some "run_1" } : StartBody) "f" "n" 5).2
      = Registry.insert Registry.empty "run_1"
          ({ run_id := "run_1", state := RunState.running, root_node_run_id := "node_1" } : Run)
    ∧ (cancelRunLocal (Registry.insert Registry.empty "run_1"
          ({ run_id := "run_1", state := RunState.running, root_node_run_id := "node_1" } : Run))
        "run_2" 5).2
      = Registry.insert Registry.empty "run_1"
          ({ run_id := "run_1", state := RunState.running, root_node_run_id := "node_1" } : Run) :=
  ⟨(claim_c10 (Registry.insert Registry.empty "run_1"
        ({ run_id := "run_1", state := RunState.running, root_node_run_id := "node_1" } : Run))
      ({ run_id := some "run_1" } : StartBody) "f" "n" 5 "run_2").1
      (runAlreadyExistsError "run_1") (by decide),
   (claim_c10 (Registry.insert Registry.empty "run_1"
        ({ run_id := "run_1", state := RunState.running, root_node_run_id := "node_1" } : Run))
      ({ run_id := some "run_1" } : StartBody) "f" "n" 5 "run_2").2.1
      (runNotFoundError "run_2") (by decide)⟩

/-- Backslash character, written by code point. -/
def bsChar : Char := Char.ofNat 92

/-- Double-quote character, written by code point. -/
def qChar : Char := Char.ofNat 34

/-- Opening curly brace character, written by code point. -/
def obraceChar : Char := Char.ofNat 123

/-- Closing curly brace character, written by code point. -/
def cbraceChar : Char := Char.ofNat 125

/-- Newline character, written by code point. -/
def nlChar : Char := Char.ofNat 10

/-- Space character, written by code point. -/
def spChar : Char := Char.ofNat 32

/-- Default `json.dumps` item separator `", "`. -/
def commaSp : List Char := [Char.ofNat 44, spChar]

/-- Default `json.dumps` key separator `": "`. -/
def colonSp : List Char := [Char.ofNat 58, spChar]

/-- Lowercase hex digit as written by `json.dumps` escapes. -/
def hexDigitChar (d : Nat) : Char :=
  if d < 10 then Char.ofNat (48 + d) else Char.ofNat (87 + d)

/-- Four-digit lowercase hex rendering of a code unit below 0x10000. -/
def hex4 (n : Nat) : List Char :=
  [hexDigitChar (n / 4096 % 16), hexDigitChar (n / 256 % 16),
   hexDigitChar (n / 16 % 16), hexDigitChar (n % 16)]

/-- Escape of one character exactly as `json.dumps` (with its default
`ensure_ascii=True`) writes string contents: backslash, double quote and
the five short control escapes; `\u00xx` for the other control
characters; printable ASCII (0x20-0x7e) verbatim; `\uxxxx` for any other
code point below 0x10000; a UTF-16 surrogate pair for the rest. -/
def escapeChar (c : Char) : List Char :=
  if c = bsChar then [bsChar, bsChar]
  else if c = qChar then [bsChar, qChar]
  else if c.toNat = 8 then [bsChar, 'b']
  else if c.toNat = 12 then [bsChar, 'f']
  else if c.toNat = 10 then [bsChar, 'n']
  else if c.toNat = 13 then [bsChar, 'r']
  else if c.toNat = 9 then [bsChar, 't']
  else if c.toNat < 32 ∨ 126 < c.toNat then
    if c.toNat < 65536 then bsChar :: 'u' :: hex4 c.toNat
    else (bsChar :: 'u' :: hex4 (55296 + (c.toNat - 65536) / 1024))
      ++ (bsChar :: 'u' :: hex4 (56320 + (c.toNat - 65536) % 1024))
  else [c]

/-- Escape of a whole string body, character by character. -/
def escapeList : List Char → List Char
  | [] => []
  | c :: s => escapeChar c ++ escapeList s

/-- JSON string literal: opening quote, escaped body, closing quote. -/
def jstr (s : String) : List Char := qChar :: (escapeList s.data ++ [qChar])

/-- Value of one hex digit, upper or lower case. -/
def hexVal (c : Char) : Option Nat :=
  if 48 ≤ c.toNat ∧ c.toNat ≤ 57 then some (c.toNat - 48)
  else if 97 ≤ c.toNat ∧ c.toNat ≤ 102 then some (c.toNat - 87)
  else if 65 ≤ c.toNat ∧ c.toNat ≤ 70 then some (c.toNat - 55)
  else none

/-- Four hex digits as one code unit, with the remainder of the input. -/
def parseHex4 : List Char → Option (Nat × List Char)
  | a :: b :: c :: d :: rest =>
    match hexVal a, hexVal b, hexVal c, hexVal d with
    | some x, some y, some z, some w => some (4096 * x + 256 * y + 16 * z + w, rest)
    | _, _, _, _ => none
  | _ => none

/-- Decode of one escape sequence (the text after a backslash), undoing
the `json.dumps` escapes: the two punctuation escapes, the five short
control escapes, and `\uxxxx` with UTF-16 surrogate pairs recombined.
Lone surrogate escapes (which `escapeChar` never emits and Lean strings
cannot represent) fail. -/
def parseEscape : List Char → Option (Char × List Char)
  | [] => none
  | e :: cs =>
    if e = qChar then some (qChar, cs)
    else if e = bsChar then some (bsChar, cs)
    else if e = 'b' then some (Char.ofNat 8, cs)
    else if e = 'f' then some (Char.ofNat 12, cs)
    else if e = 'n' then some (Char.ofNat 10, cs)
    else if e = 'r' then some (Char.ofNat 13, cs)
    else if e = 't' then some (Char.ofNat 9, cs)
    else if e = 'u' then
      match parseHex4 cs with
      | none => none
      | some (n1, cs3) =>
        if 55296 ≤ n1 ∧ n1 < 56320 then
          match cs3 with
          | b2 :: u2 :: cs4 =>
            if b2 = bsChar ∧ u2 = 'u' then
              match parseHex4 cs4 with
              | none => none
              | some (n2, cs5) =>
                if 56320 ≤ n2 ∧ n2 < 57344 then
                  some (Char.ofNat (65536 + (n1 - 55296) * 1024 + (n2 - 56320)), cs5)
                else none
            else none
          | _ => none
        else if 56320 ≤ n1 ∧ n1 < 57344 then none
        else some (Char.ofNat n1, cs3)
    else none

/-- Fuel-indexed JSON string body parser: consumes characters up to an
unescaped closing quote, decoding backslash escapes through
`parseEscape`; one unit of fuel per produced character. -/
def parseJsonStringAux : Nat → List Char → Option (List Char × List Char)
  | 0, _ => none
  | _ + 1, [] => none
  | fuel + 1, c :: cs =>
    if c = qChar then some ([], cs)
    else if c = bsChar then
      match parseEscape cs with
      | none => none
      | some (d, rest) => (parseJsonStringAux fuel rest).map (fun p => (d :: p.1, p.2))
    else (parseJsonStringAux fuel cs).map (fun p => (c :: p.1, p.2))

/-- Expect and drop an exact literal text, returning the remainder. -/
def dropLit : List Char → List Char → Option (List Char)
  | [], cs => some cs
  | _ :: _, [] => none
  | l :: ls, c :: cs => if c = l then dropLit ls cs else none

/-- Longest decimal-digit run at the head of the input. -/
def takeDigits : List Char → List Char × List Char
  | [] => ([], [])
  | c :: cs =>
    if c.isDigit then
      ((c :: (takeDigits cs).1), (takeDigits cs).2)
    else ([], c :: cs)

/-- Decimal value of a digit run. -/
def natOfDigits (ds : List Char) : Nat :=
  ds.foldl (fun a c => 10 * a + (c.toNat - 48)) 0

/-- Fixed placeholder message of the local `run_started` event
(gateway.py line 227). -/
def placeholderMsg : String := "Template Run Gateway does not stream real events yet."

/-- Exact text of `json.dumps(payload)` for the local-mode
`stream_run_events` payload dict (gateway.py lines 222-228), with its
insertion-ordered keys and the default `", "` and `": "` separators;
`timeStr` is `now().isoformat()`. -/
def streamDumps (rid timeStr : String) : List Char :=
  obraceChar :: (jstr "run_id" ++ colonSp ++ jstr rid
    ++ commaSp ++ jstr "seq" ++ colonSp ++ ['0']
    ++ commaSp ++ jstr "type" ++ colonSp ++ jstr "run_started"
    ++ commaSp ++ jstr "time" ++ colonSp ++ jstr timeStr
    ++ commaSp ++ jstr "data" ++ colonSp
    ++ (obraceChar :: (jstr "message" ++ colonSp ++ jstr placeholderMsg ++ [cbraceChar]))
    ++ [cbraceChar])

/-- The returned payload `json.dumps(payload) + "\n"` (gateway.py line 229). -/
def streamLineChars (rid timeStr : String) : List Char :=
  streamDumps rid timeStr ++ [nlChar]

/-- RunGateway.stream_run_events (gateway.py lines 207-229): proxy mode
delegates to the adapter; local mode returns the one-line `run_started`
payload for the requested id. -/
def streamRunEvents (g : Gateway) (downstream : Except ArpServerError String)
    (rid timeStr : String) : Except ArpServerError String :=
  match g.run_coordinator with
  | some _ => downstream
  | none => .ok ⟨streamLineChars rid timeStr⟩

/-- Literal prefix of the stream line up to the opening quote of the
`run_id` value. -/
def lit1 : List Char := obraceChar :: (jstr "run_id" ++ colonSp ++ [qChar])

/-- Literal text between the `run_id` value and the `seq` number. -/
def lit2 : List Char := commaSp ++ jstr "seq" ++ colonSp

/-- Literal text between the `seq` number and the `type` value. -/
def lit3 : List Char := commaSp ++ jstr "type" ++ colonSp ++ [qChar]

/-- Literal text between the `type` value and the `time` value. -/
def lit4 : List Char := commaSp ++ jstr "time" ++ colonSp ++ [qChar]

/-- Literal text between the `time` value and the `message` value. -/
def lit5 : List Char :=
  commaSp ++ jstr "data" ++ colonSp ++ [obraceChar] ++ jstr "message" ++ colonSp ++ [qChar]

/-- Parser of the local stream line back into its five fields
(run_id, seq, type, time, message). -/
def parseStreamLine (s : String) : Option (String × Nat × String × String × String) :=
  (dropLit lit1 s.data).bind fun cs1 =>
  (parseJsonStringAux cs1.length cs1).bind fun p1 =>
  (dropLit lit2 p1.2).bind fun cs3 =>
  (if (takeDigits cs3).1 = [] then none else
   (dropLit lit3 (takeDigits cs3).2).bind fun cs5 =>
   (parseJsonStringAux cs5.length cs5).bind fun p2 =>
   (dropLit lit4 p2.2).bind fun cs7 =>
   (parseJsonStringAux cs7.length cs7).bind fun p3 =>
   (dropLit lit5 p3.2).bind fun cs9 =>
   (parseJsonStringAux cs9.length cs9).bind fun p4 =>
   if p4.2 = [cbraceChar, cbraceChar, nlChar] then
     some (⟨p1.1⟩, natOfDigits (takeDigits cs3).1, ⟨p2.1⟩, ⟨p3.1⟩, ⟨p4.1⟩)
   else none)

theorem dropLit_append (l rest : List Char) : dropLit l (l ++ rest) = some rest := by
  induction l with
  | nil => rfl
  | cons c ls ih => simp [dropLit, ih]

theorem hexVal_hexDigitChar (d : Nat) (hd : d < 16) :
    hexVal (hexDigitChar d) = some d := by
  interval_cases d <;> decide

theorem parseHex4_hex4 (n : Nat) (hn : n < 65536) (rest : List Char) :
    parseHex4 (hex4 n ++ rest) = some (n, rest) := by
  have h1 := hexVal_hexDigitChar (n / 4096 % 16) (Nat.mod_lt _ (by decide))
  have h2 := hexVal_hexDigitChar (n / 256 % 16) (Nat.mod_lt _ (by decide))
  have h3 := hexVal_hexDigitChar (n / 16 % 16) (Nat.mod_lt _ (by decide))
  have h4 := hexVal_hexDigitChar (n % 16) (Nat.mod_lt _ (by decide))
  simp only [hex4, List.cons_append, List.nil_append, parseHex4, h1, h2, h3, h4]
  have he : 4096 * (n / 4096 % 16) + 256 * (n / 256 % 16) + 16 * (n / 16 % 16) + n % 16 = n := by
    omega
  rw [he]

theorem length_le_length_escapeList (s : List Char) :
    s.length ≤ (escapeList s).length := by
  induction s with
  | nil => simp [escapeList]
  | cons c s ih =>
    have hc : 1 ≤ (escapeChar c).length := by
      unfold escapeChar
      split_ifs <;> simp [hex4]
    simp only [escapeList, List.length_append, List.length_cons]
    omega

theorem parseEscape_surrogatePair (n : Nat) (h1 : 65536 ≤ n) (h2 : n < 1114112)
    (tail : List Char) :
    parseEscape ('u' :: (hex4 (55296 + (n - 65536) / 1024)
        ++ (bsChar :: 'u' :: (hex4 (56320 + (n - 65536) % 1024) ++ tail))))
      = some (Char.ofNat n, tail) := by
  have huq : ¬('u' = qChar) := by decide
  have hub : ¬('u' = bsChar) := by decide
  have hb : ¬('u' = 'b') := by decide
  have hf : ¬('u' = 'f') := by decide
  have hn : ¬('u' = 'n') := by decide
  have hr : ¬('u' = 'r') := by decide
  have ht : ¬('u' = 't') := by decide
  have hhi16 : 55296 + (n - 65536) / 1024 < 65536 := by omega
  have hlo16 : 56320 + (n - 65536) % 1024 < 65536 := by omega
  have hs1 : 55296 ≤ 55296 + (n - 65536) / 1024
      ∧ 55296 + (n - 65536) / 1024 < 56320 := by omega
  have hs2 : 56320 ≤ 56320 + (n - 65536) % 1024
      ∧ 56320 + (n - 65536) % 1024 < 57344 := by omega
  simp [parseEscape, parseHex4_hex4 _ hhi16, parseHex4_hex4 _ hlo16, hs1, hs2,
    huq, hub, hb, hf, hn, hr, ht]
  have hcomb2 : 65536 + (n - 65536) / 1024 * 1024 + (n - 65536) % 1024 = n := by omega
  rw [hcomb2]

theorem parseEscape_unicode (n : Nat) (hn : n < 65536)
    (hns1 : ¬(55296 ≤ n ∧ n < 56320)) (hns2 : ¬(56320 ≤ n ∧ n < 57344))
    (tail : List Char) :
    parseEscape ('u' :: (hex4 n ++ tail)) = some (Char.ofNat n, tail) := by
  have huq : ¬('u' = qChar) := by decide
  have hub : ¬('u' = bsChar) := by decide
  have hb : ¬('u' = 'b') := by decide
  have hf : ¬('u' = 'f') := by decide
  have hn2 : ¬('u' = 'n') := by decide
  have hr : ¬('u' = 'r') := by decide
  have ht : ¬('u' = 't') := by decide
  simp [parseEscape, parseHex4_hex4 n hn, hns1, hns2, huq, hub, hb, hf, hn2, hr, ht]

theorem parse_succ_cons (fuel : Nat) (c : Char) (cs : List Char) :
    parseJsonStringAux (fuel + 1) (c :: cs)
      = (if c = qChar then some ([], cs)
         else if c = bsChar then
           match parseEscape cs with
           | none => none
           | some (d, rest) => (parseJsonStringAux fuel rest).map (fun p => (d :: p.1, p.2))
         else (parseJsonStringAux fuel cs).map (fun p => (c :: p.1, p.2))) := by
  conv =>
    lhs
    rw [parseJsonStringAux]

theorem parse_step (c : Char) (fuel : Nat) (tail : List Char) :
    parseJsonStringAux (fuel + 1) (escapeChar c ++ tail)
      = (parseJsonStringAux fuel tail).map (fun p => (c :: p.1, p.2)) := by
  have hbq : ¬(bsChar = qChar) := by decide
  have hqb : ¬(qChar = bsChar) := by decide
  have hbsq : ¬('b' = qChar) := by decide
  have hbsb : ¬('b' = bsChar) := by decide
  have hfq : ¬('f' = qChar) := by decide
  have hfb : ¬('f' = bsChar) := by decide
  have hnq : ¬('n' = qChar) := by decide
  have hnb : ¬('n' = bsChar) := by decide
  have hrq : ¬('r' = qChar) := by decide
  have hrb : ¬('r' = bsChar) := by decide
  have htq : ¬('t' = qChar) := by decide
  have htb : ¬('t' = bsChar) := by decide
  by_cases h1 : c = bsChar
  · subst h1
    have he : escapeChar bsChar = [bsChar, bsChar] := by decide
    rw [he, List.cons_append, List.cons_append, List.nil_append, parse_succ_cons]
    simp [hbq, parseEscape]
  by_cases h2 : c = qChar
  · subst h2
    have he : escapeChar qChar = [bsChar, qChar] := by decide
    rw [he, List.cons_append, List.cons_append, List.nil_append, parse_succ_cons]
    simp [hbq, parseEscape]
  by_cases h3 : c.toNat = 8
  · have hc : c = Char.ofNat 8 := by
      rw [← h3, Char.ofNat_toNat]
    subst hc
    have he : escapeChar (Char.ofNat 8) = [bsChar, 'b'] := by decide
    rw [he, List.cons_append, List.cons_append, List.nil_append, parse_succ_cons]
    simp [hbq, parseEscape, hbsq, hbsb]
  by_cases h4 : c.toNat = 12
  · have hc : c = Char.ofNat 12 := by
      rw [← h4, Char.ofNat_toNat]
    subst hc
    have he : escapeChar (Char.ofNat 12) = [bsChar, 'f'] := by decide
    rw [he, List.cons_append, List.cons_append, List.nil_append, parse_succ_cons]
    simp [hbq, parseEscape, hfq, hfb, hbsq]
  by_cases h5 : c.toNat = 10
  · have hc : c = Char.ofNat 10 := by
      rw [← h5, Char.ofNat_toNat]
    subst hc
    have he : escapeChar (Char.ofNat 10) = [bsChar, 'n'] := by decide
    rw [he, List.cons_append, List.cons_append, List.nil_append, parse_succ_cons]
    simp [hbq, parseEscape, hnq, hnb, hbsq, hfq]
  by_cases h6 : c.toNat = 13
  · have hc : c = Char.ofNat 13 := by
      rw [← h6, Char.ofNat_toNat]
    subst hc
    have he : escapeChar (Char.ofNat 13) = [bsChar, 'r'] := by decide
    rw [he, List.cons_append, List.cons_append, List.nil_append, parse_succ_cons]
    simp [hbq, parseEscape, hrq, hrb, hbsq, hfq, hnq]
  by_cases h7 : c.toNat = 9
  · have hc : c = Char.ofNat 9 := by
      rw [← h7, Char.ofNat_toNat]
    subst hc
    have he : escapeChar (Char.ofNat 9) = [bsChar, 't'] := by decide
    rw [he, List.cons_append, List.cons_append, List.nil_append, parse_succ_cons]
    simp [hbq, parseEscape, htq, htb, hbsq, hfq, hnq, hrq]
  by_cases h8 : c.toNat < 32 ∨ 126 < c.toNat
  · have hval : c.toNat < 55296 ∨ (57343 < c.toNat ∧ c.toNat < 1114112) := c.valid
    by_cases h9 : c.toNat < 65536
    · have hns1 : ¬(55296 ≤ c.toNat ∧ c.toNat < 56320) := by omega
      have hns2 : ¬(56320 ≤ c.toNat ∧ c.toNat < 57344) := by omega
      have he : escapeChar c = bsChar :: 'u' :: hex4 c.toNat := by
        simp [escapeChar, h1, h2, h3, h4, h5, h6, h7, h8, h9]
      have hpe := parseEscape_unicode c.toNat h9 hns1 hns2 tail
      rw [he]
      simp only [List.cons_append]
      rw [parse_succ_cons]
      simp [hbq, hpe, Char.ofNat_toNat]
    · have hup : c.toNat < 1114112 := by omega
      have hlo : 65536 ≤ c.toNat := by omega
      have he : escapeChar c = (bsChar :: 'u' :: hex4 (55296 + (c.toNat - 65536) / 1024))
          ++ (bsChar :: 'u' :: hex4 (56320 + (c.toNat - 65536) % 1024)) := by
        simp [escapeChar, h1, h2, h3, h4, h5, h6, h7, h8, h9]
      have hpe := parseEscape_surrogatePair c.toNat hlo hup tail
      rw [he]
      simp only [List.cons_append, List.append_assoc]
      rw [parse_succ_cons]
      simp [hbq, hpe, Char.ofNat_toNat]
  · have he : escapeChar c = [c] := by
      simp [escapeChar, h1, h2, h3, h4, h5, h6, h7, h8]
    rw [he, List.cons_append, List.nil_append, parse_succ_cons]
    simp [h1, h2]

theorem parse_escapeList (s rest : List Char) (fuel : Nat) (hf : s.length < fuel) :
    parseJsonStringAux fuel (escapeList s ++ (qChar :: rest)) = some (s, rest) := by
  induction s generalizing fuel with
  | nil =>
    cases fuel with
    | zero => omega
    | succ f =>
      simp only [escapeList, List.nil_append]
      rw [parse_succ_cons]
      simp
  | cons c s ih =>
    cases fuel with
    | zero => omega
    | succ f =>
      have hsh : escapeList (c :: s) ++ (qChar :: rest)
          = escapeChar c ++ (escapeList s ++ (qChar :: rest)) := by
        simp [escapeList, List.append_assoc]
      have hf2 : s.length < f := by
        simp only [List.length_cons] at hf
        omega
      rw [hsh, parse_step, ih f hf2]
      rfl

theorem parse_escaped_self (s rest : List Char) :
    parseJsonStringAux (escapeList s ++ (qChar :: rest)).length (escapeList s ++ (qChar :: rest))
      = some (s, rest) := by
  apply parse_escapeList
  have h := length_le_length_escapeList s
  simp only [List.length_append, List.length_cons]
  omega

theorem takeDigits_zero_comma (x : List Char) :
    takeDigits ('0' :: Char.ofNat 44 :: x) = (['0'], Char.ofNat 44 :: x) := by
  simp [takeDigits, (by decide : ('0' : Char).isDigit = true),
    (by decide : (Char.ofNat 44).isDigit = false)]

theorem takeDigits_zero_lit3 (x : List Char) :
    takeDigits ('0' :: (lit3 ++ x)) = (['0'], lit3 ++ x) := by
  have hl3 : lit3 ++ x
      = Char.ofNat 44 :: spChar :: ((jstr "type" ++ colonSp ++ [qChar]) ++ x) := by
    simp [lit3, commaSp]
  rw [hl3, takeDigits_zero_comma, ← hl3]

theorem takeDigits_zero_lit3_fst (x : List Char) :
    (takeDigits ('0' :: (lit3 ++ x))).1 = ['0'] := by
  rw [takeDigits_zero_lit3]

theorem takeDigits_zero_lit3_snd (x : List Char) :
    (takeDigits ('0' :: (lit3 ++ x))).2 = lit3 ++ x := by
  rw [takeDigits_zero_lit3]

theorem nl_nm_append {a b : List Char} (ha : nlChar ∉ a) (hb : nlChar ∉ b) :
    nlChar ∉ a ++ b := by
  intro h
  rcases List.mem_append.1 h with h | h
  · exact ha h
  · exact hb h

theorem nl_not_mem_escapeChar (c : Char) : nlChar ∉ escapeChar c := by
  have hx : ∀ n : Nat, nlChar ∉ hex4 n := by
    intro n h
    have hd : ∀ d : Nat, d < 16 → ¬(nlChar = hexDigitChar d) := by
      intro d hd
      interval_cases d <;> decide
    simp only [hex4, List.mem_cons, List.not_mem_nil, or_false] at h
    rcases h with h | h | h | h
    · exact hd _ (Nat.mod_lt _ (by decide)) h
    · exact hd _ (Nat.mod_lt _ (by decide)) h
    · exact hd _ (Nat.mod_lt _ (by decide)) h
    · exact hd _ (Nat.mod_lt _ (by decide)) h
  unfold escapeChar
  split_ifs with g1 g2 g3 g4 g5 g6 g7 g8 g9
  · decide
  · decide
  · decide
  · decide
  · decide
  · decide
  · decide
  · intro h
    simp only [List.mem_cons] at h
    rcases h with h | h | h
    · exact absurd h (by decide)
    · exact absurd h (by decide)
    · exact hx _ h
  · apply nl_nm_append
    · intro h
      simp only [List.mem_cons] at h
      rcases h with h | h | h
      · exact absurd h (by decide)
      · exact absurd h (by decide)
      · exact hx _ h
    · intro h
      simp only [List.mem_cons] at h
      rcases h with h | h | h
      · exact absurd h (by decide)
      · exact absurd h (by decide)
      · exact hx _ h
  · intro h
    simp only [List.mem_singleton] at h
    have h10 : c.toNat = 10 := by
      rw [← h]
      decide
    omega

theorem nl_not_mem_escapeList (s : List Char) : nlChar ∉ escapeList s := by
  induction s with
  | nil => simp [escapeList]
  | cons c s ih =>
    simp only [escapeList]
    exact nl_nm_append (nl_not_mem_escapeChar c) ih

theorem nl_not_mem_jstr (s : String) : nlChar ∉ jstr s := by
  intro h
  simp only [jstr, List.mem_cons] at h
  rcases h with h | h
  · exact absurd h (by decide)
  · rcases List.mem_append.1 h with h | h
    · exact nl_not_mem_escapeList _ h
    · simp only [List.mem_singleton] at h
      exact absurd h (by decide)

theorem nl_not_mem_streamDumps (rid t : String) : nlChar ∉ streamDumps rid t := by
  have hcm : nlChar ∉ commaSp := by decide
  have hcl : nlChar ∉ colonSp := by decide
  have hz : nlChar ∉ ['0'] := by decide
  have hcb : nlChar ∉ [cbraceChar] := by decide
  intro h
  simp only [streamDumps, List.mem_cons] at h
  rcases h with h | h
  · exact absurd h (by decide)
  · refine (nl_nm_append (a := jstr "run_id" ++ colonSp ++ jstr rid ++ commaSp ++ jstr "seq"
        ++ colonSp ++ ['0'] ++ commaSp ++ jstr "type" ++ colonSp ++ jstr "run_started"
        ++ commaSp ++ jstr "time" ++ colonSp ++ jstr t ++ commaSp ++ jstr "data" ++ colonSp
        ++ (obraceChar :: (jstr "message" ++ colonSp ++ jstr placeholderMsg ++ [cbraceChar])))
        (b := [cbraceChar]) ?_ hcb) h
    refine nl_nm_append (nl_nm_append (nl_nm_append (nl_nm_append (nl_nm_append (nl_nm_append
      (nl_nm_append (nl_nm_append (nl_nm_append (nl_nm_append (nl_nm_append (nl_nm_append
      (nl_nm_append (nl_nm_append (nl_nm_append (nl_nm_append (nl_nm_append
      (nl_nm_append (nl_not_mem_jstr "run_id") hcl) (nl_not_mem_jstr rid)) hcm)
      (nl_not_mem_jstr "seq")) hcl) hz) hcm) (nl_not_mem_jstr "type")) hcl)
      (nl_not_mem_jstr "run_started")) hcm) (nl_not_mem_jstr "time")) hcl)
      (nl_not_mem_jstr t)) hcm) (nl_not_mem_jstr "data")) hcl) ?_
    intro hm
    rcases List.mem_cons.1 hm with hm | hm
    · exact absurd hm (by decide)
    · exact nl_nm_append (nl_nm_append (nl_nm_append (nl_not_mem_jstr "message") hcl)
        (nl_not_mem_jstr placeholderMsg)) hcb hm

theorem string_mk_data (s : String) : (⟨s.data⟩ : String) = s := rfl

theorem streamLine_decomp (rid t : String) :
    streamLineChars rid t
      = lit1 ++ (escapeList rid.data ++ (qChar :: (lit2 ++ ('0' :: (lit3 ++ (escapeList (String.data "run_started") ++ (qChar :: (lit4 ++ (escapeList t.data ++ (qChar :: (lit5 ++ (escapeList placeholderMsg.data ++ (qChar :: [cbraceChar, cbraceChar, nlChar]))))))))))))) := by
  simp [streamLineChars, streamDumps, lit1, lit2, lit3, lit4, lit5, jstr,
    List.append_assoc]

theorem parseStreamLine_roundTrip (rid t : String) :
    parseStreamLine ⟨streamLineChars rid t⟩
      = some (rid, 0, "run_started", t, placeholderMsg) := by
  have hd := streamLine_decomp rid t
  simp only [parseStreamLine]
  rw [hd, dropLit_append]
  simp only [Option.some_bind]
  rw [parse_escaped_self]
  simp only [Option.some_bind]
  rw [dropLit_append]
  simp only [Option.some_bind]
  rw [takeDigits_zero_lit3_fst, takeDigits_zero_lit3_snd]
  rw [if_neg (by decide : ¬((['0'] : List Char) = []))]
  rw [dropLit_append]
  simp only [Option.some_bind]
  rw [parse_escaped_self]
  simp only [Option.some_bind]
  rw [dropLit_append]
  simp only [Option.some_bind]
  rw [parse_escaped_self]
  simp only [Option.some_bind]
  rw [dropLit_append]
  simp only [Option.some_bind]
  rw [parse_escaped_self]
  simp only [Option.some_bind]
  simp only [if_true]
  rfl

/-- C9: local-mode `stream_run_events` returns exactly one line of
structured text terminated by a newline (the newline is the final
character and occurs nowhere else), and parsing that line recovers the
five fields: the requested run id, sequence number 0, type
`run_started`, the timestamp, and the fixed placeholder message. -/
theorem claim_c9 (g : Gateway) (downstream : Except ArpServerError String)
    (rid timeStr : String) (h : g.run_coordinator = none) :
    ∃ out : String,
      streamRunEvents g downstream rid timeStr = Except.ok out
      ∧ (∃ front, out.data = front ++ [nlChar] ∧ nlChar ∉ front)
      ∧ parseStreamLine out = some (rid, 0, "run_started", timeStr, placeholderMsg) := by
  refine ⟨⟨streamLineChars rid timeStr⟩, ?_,
    ⟨streamDumps rid timeStr, rfl, nl_not_mem_streamDumps rid timeStr⟩,
    parseStreamLine_roundTrip rid timeStr⟩
  simp [streamRunEvents, h]

/-- Witness for C9 at a concrete run id and timestamp. -/
theorem claim_c9_witness :
    ∃ out : String,
      streamRunEvents ({ } : Gateway) (Except.error (runNotFoundError "unused"))
          "run_1" "2025-01-01T00:00:00+00:00"
        = Except.ok out
      ∧ (∃ front, out.data = front ++ [nlChar] ∧ nlChar ∉ front)
      ∧ parseStreamLine out
          = some ("run_1", 0, "run_started", "2025-01-01T00:00:00+00:00", placeholderMsg) :=
  claim_c9 ({ } : Gateway) (Except.error (runNotFoundError "unused"))
    "run_1" "2025-01-01T00:00:00+00:00" rfl

end ArpGateway
